import Mathlib

/-!
Verification of the client-side synchronization core: a shallow embedding of
the version cache (go/chat/storage/version.go), the RPC client (rpc.Client),
and the service orchestrator (the service package: Service.Run, Handle,
OnLogin, OnLogout, gregordConnect), with theorems settling the spec claims.

Machine integers are modelled as Int (Go int); the per-instance mutex is
elided, since every embedded operation corresponds to one critical section
executed atomically under the single Version lock. Fallible collaborators
(LevelDB GetRaw/PutRaw, encode/decode, network calls) are modelled as
explicit outcome parameters.
-/

namespace Keybase

namespace Storage

/-- chat1.ServerCacheVers: the pair of server-declared cache generation
numbers. The Go zero value is both fields zero. -/
structure ServerCacheVers where
  InboxVers : Int
  BodiesVers : Int
deriving Repr, DecidableEq

/-- The storage Error type as used by version.go: NewInternalError wraps
collaborator failures, NewVersionMismatchError carries the expected and the
actual version (both cast to chat1.InboxVers in the source). -/
inductive ChatError where
  | internalError (msg : String)
  | versionMismatchError (expected actual : Int)
deriving Repr, DecidableEq

/-- Outcome of LocalChatDb.GetRaw at the single "versions" key (makeKey):
an error, not found, or the stored raw byte blob. -/
inductive GetRawResult where
  | getErr (msg : String)
  | notFound
  | found (raw : List Nat)
deriving Repr, DecidableEq

/-- The persisted store as seen through the Get/Put contract at the
"versions" key. putErr is the outcome PutRaw would report. -/
structure ChatDb where
  record : GetRawResult
  putErr : Option String
deriving Repr, DecidableEq

/-- The external encode/decode collaborators (wire format is out of scope;
only their fallibility matters). -/
structure CodecEnv where
  encode : ServerCacheVers → Except String (List Nat)
  decode : List Nat → Except String ServerCacheVers

/-- ServerVersions: the in-memory side of the cache (the `cached` pointer;
none models nil). -/
structure ServerVersions where
  cached : Option ServerCacheVers
deriving Repr, DecidableEq

/-- ServerVersions.fetchLocked: memory first; else GetRaw — an error is
wrapped as InternalError, not-found yields the zero value with no error and
does NOT populate the memory cache, a found blob is decoded (failure wrapped
as InternalError) and the decoded value is cached in memory. -/
def fetchLocked (env : CodecEnv) (db : ChatDb) (s : ServerVersions) :
    Except ChatError ServerCacheVers × ServerVersions :=
  match s.cached with
  | some v => (.ok v, s)
  | none =>
    match db.record with
    | .getErr msg => (.error (.internalError ("GetRaw error: " ++ msg)), s)
    | .notFound => (.ok ⟨0, 0⟩, s)
    | .found raw =>
      match env.decode raw with
      | .error msg => (.error (.internalError ("decode error: " ++ msg)), s)
      | .ok srvVers => (.ok srvVers, { cached := some srvVers })

/-- ServerVersions.Fetch: fetchLocked under the Version lock. -/
def Fetch (env : CodecEnv) (db : ChatDb) (s : ServerVersions) :
    Except ChatError ServerCacheVers × ServerVersions :=
  fetchLocked env db s

/-- ServerVersions.matchLocked: fetch, then compare versFunc of the fetched
value against the caller-held vers; mismatch yields
NewVersionMismatchError(vers, retVers). -/
def matchLocked (env : CodecEnv) (db : ChatDb) (s : ServerVersions)
    (vers : Int) (versFunc : ServerCacheVers → Int) :
    Except ChatError Unit × ServerVersions :=
  match fetchLocked env db s with
  | (.error e, s1) => (.error e, s1)
  | (.ok srvVers, s1) =>
    let retVers := versFunc srvVers
    if retVers ≠ vers then (.error (.versionMismatchError vers retVers), s1)
    else (.ok (), s1)

/-- ServerVersions.MatchInbox. -/
def MatchInbox (env : CodecEnv) (db : ChatDb) (s : ServerVersions)
    (vers : Int) : Except ChatError Unit × ServerVersions :=
  matchLocked env db s vers (fun srvVers => srvVers.InboxVers)

/-- ServerVersions.MatchBodies. -/
def MatchBodies (env : CodecEnv) (db : ChatDb) (s : ServerVersions)
    (vers : Int) : Except ChatError Unit × ServerVersions :=
  matchLocked env db s vers (fun srvVers => srvVers.BodiesVers)

/-- ServerVersions.Sync: writes the memory cache FIRST, then encodes and
PutRaws; an encode or PutRaw failure is reported after the memory write has
already happened. Returns (result, new memory state, new db state). -/
def Sync (env : CodecEnv) (db : ChatDb) (_s : ServerVersions)
    (vers : ServerCacheVers) :
    Except ChatError Unit × ServerVersions × ChatDb :=
  let s1 : ServerVersions := { cached := some vers }
  match env.encode vers with
  | .error msg => (.error (.internalError ("encode error: " ++ msg)), s1, db)
  | .ok dat =>
    match db.putErr with
    | some msg => (.error (.internalError ("PutRaw error: " ++ msg)), s1, db)
    | none => (.ok (), s1, { db with record := .found dat })

/-- A concrete, invertible codec used only to instantiate witnesses. -/
def codec0 : CodecEnv :=
  { encode := fun v => .ok [v.InboxVers.toNat, v.BodiesVers.toNat]
  , decode := fun raw =>
      match raw with
      | [a, b] => .ok ⟨(a : Int), (b : Int)⟩
      | _ => .error "bad blob" }

/-- A codec whose encode always fails, for witnesses about Sync failure. -/
def codecEncodeFail : CodecEnv :=
  { encode := fun _ => .error "boom"
  , decode := fun _ => .error "boom" }

/-- An empty memory cache. -/
def sEmpty : ServerVersions := { cached := none }

/-- A store with no persisted record and successful puts. -/
def dbEmpty : ChatDb := { record := .notFound, putErr := none }

end Storage

namespace Rpc

/-- Errors observable from rpc.Client.Call: the nil-context guard error
("No Context provided for this call", the InvalidArgument kind of the spec),
a getDispatcher failure, or a failure of the dispatched call itself. -/
inductive RpcErr where
  | noContext
  | dispatcherErr (msg : String)
  | callErr (msg : String)
deriving Repr, DecidableEq

/-- Operations rpc.Client.Call performs on the underlying Transporter, in
order: xp.receiveFrames, then dispatching the call via the dispatcher. -/
inductive TransportAction where
  | receiveFrames
  | dispatchCall (method : String) (arg : Int)
deriving Repr, DecidableEq

/-- Collaborator outcomes for one invocation of Call: whether
xp.getDispatcher errors and whether the dispatched call errors. Log-tag
attachment only rewrites the context and touches no transport state, so it
needs no field here. -/
structure RpcEnv where
  getDispatcherErr : Option String
  dispatchCallErr : Option String
deriving Repr, DecidableEq

/-- rpc.Client.Call: a nil ctx (none) is rejected before anything touches
the transport; otherwise receiveFrames runs, the dispatcher is fetched, and
the call is dispatched. Returns the result and the list of transport
actions that were performed. -/
def Call (env : RpcEnv) (ctx : Option Int) (method : String) (arg : Int) :
    Except RpcErr Unit × List TransportAction :=
  match ctx with
  | none => (.error .noContext, [])
  | some _ =>
    match env.getDispatcherErr with
    | some e => (.error (.dispatcherErr e), [.receiveFrames])
    | none =>
      match env.dispatchCallErr with
      | some e => (.error (.callErr e), [.receiveFrames, .dispatchCall method arg])
      | none => (.ok (), [.receiveFrames, .dispatchCall method arg])

end Rpc

namespace Service

/-- A generic error value flowing through the service orchestrator. -/
inductive GErr where
  | err (msg : String)
deriving Repr, DecidableEq

/-- Side effects of Service.gregordConnect on the push client. -/
inductive GAction where
  | reset
  | connect
deriving Repr, DecidableEq

/-- Collaborator outcomes for one run of gregordConnect: the ParseFMPURI
outcome, whether the push client is already connected, and the values
Reset and Connect would return. -/
structure GregorEnv where
  parseUriErr : Option GErr
  isConnected : Bool
  resetErr : Option GErr
  connectErr : Option GErr
deriving Repr, DecidableEq

/-- Service.gregordConnect, with its named return variable err made
explicit. After the ParseFMPURI error check, err is nil. The source line
`if d.gregor.Reset(); err != nil { return err }` runs Reset as the init
statement, DISCARDING its return value (env.resetErr), and then tests the
stale err variable — so that guard can never fire. Connect is then
attempted and its error, if any, is returned. -/
def gregordConnect (env : GregorEnv) : Except GErr Unit × List GAction :=
  match env.parseUriErr with
  | some e => (.error e, [])
  | none =>
    let err : Option GErr := none
    let resetActs : List GAction := if env.isConnected then [.reset] else []
    match (if env.isConnected then err else none) with
    | some e => (.error e, resetActs)
    | none =>
      match env.connectErr with
      | some e => (.error e, resetActs ++ [.connect])
      | none => (.ok (), resetActs ++ [.connect])

/-- The start steps Service.OnLogin can perform. -/
inductive LoginAction where
  | rekeyLogin
  | gregordConnectStep
  | delivererStart
  | bgIdentifierRun
deriving Repr, DecidableEq

/-- Service.OnLogin: rekeyMaster.Login, then gregordConnect — whose error,
if any, is returned immediately; only on success and with a non-nil uid are
MessageDeliverer.Start and runBackgroundIdentifierWithUID attempted (the
latter swallows its own errors, logging them). Returns the result and the
list of steps that were attempted. -/
def OnLogin (genv : GregorEnv) (uidNil : Bool) :
    Except GErr Unit × List LoginAction :=
  match (gregordConnect genv).fst with
  | .error e => (.error e, [.rekeyLogin, .gregordConnectStep])
  | .ok _ =>
    if uidNil then (.ok (), [.rekeyLogin, .gregordConnectStep])
    else (.ok (), [.rekeyLogin, .gregordConnectStep, .delivererStart,
                   .bgIdentifierRun])

/-- The nil-status of the Service struct fields that OnLogout guards on,
plus the global-context MessageDeliverer slot that createMessageDeliverer
actually writes. -/
structure ServiceState where
  gregorSet : Bool
  messageDelivererSet : Bool
  globalMessageDelivererSet : Bool
  badgerSet : Bool
  backgroundIdentifierSet : Bool
deriving Repr, DecidableEq

/-- NewService: rekeyMaster and badger are constructed; gregor,
messageDeliverer and backgroundIdentifier start out nil, and the global
MessageDeliverer slot is unset. -/
def newService : ServiceState :=
  { gregorSet := false
  , messageDelivererSet := false
  , globalMessageDelivererSet := false
  , badgerSet := true
  , backgroundIdentifierSet := false }

/-- Service.createMessageDeliverer: builds a Deliverer and assigns it to
d.G().MessageDeliverer — the struct field d.messageDeliverer is NOT
assigned anywhere in the file. -/
def createMessageDeliverer (s : ServiceState) : ServiceState :=
  { s with globalMessageDelivererSet := true }

/-- Service.startupGregor: when gregor is not disabled (and not in Tor
mode), d.gregor is assigned a fresh handler. -/
def startupGregor (s : ServiceState) (gregorDisabled : Bool) : ServiceState :=
  if gregorDisabled then s else { s with gregorSet := true }

/-- The stop steps Service.OnLogout can perform, in source order. -/
inductive LogoutAction where
  | gregorShutdown
  | delivererStop
  | rekeyLogout
  | badgerClear
  | bgIdentLogout
deriving Repr, DecidableEq

/-- Service.OnLogout: each stop step is guarded only by a nil check on its
own field and none of them returns early, so the steps always run in the
fixed order gregor, messageDeliverer, rekeyMaster, badger,
backgroundIdentifier; the function itself returns nil. -/
def OnLogout (s : ServiceState) : Except GErr Unit × List LogoutAction :=
  let a1 : List LogoutAction := if s.gregorSet then [.gregorShutdown] else []
  let a2 : List LogoutAction :=
    if s.messageDelivererSet then [.delivererStop] else []
  let a3 : List LogoutAction := [.rekeyLogout]
  let a4 : List LogoutAction := if s.badgerSet then [.badgerClear] else []
  let a5 : List LogoutAction :=
    if s.backgroundIdentifierSet then [.bgIdentLogout] else []
  (.ok (), a1 ++ a2 ++ a3 ++ a4 ++ a5)

/-- State of one connection teardown in Service.Handle: the sync.Once flag
and the log of runs of the Shutdowner list (each entry is the list of
shutdowner names executed in one run of the Once body). -/
structure HandleState where
  shutdownOnceDone : Bool
  executed : List (List String)
deriving Repr, DecidableEq

/-- The shutdown closure built in Service.Handle: shutdownOnce.Do runs the
loop over the registered shutdowners only if the Once has not fired yet. -/
def shutdownClosure (shutdowners : List String) (s : HandleState) :
    HandleState :=
  if s.shutdownOnceDone then s
  else { shutdownOnceDone := true, executed := s.executed ++ [shutdowners] }

/-- n close paths firing in any order (deferred shutdown on Handle return,
the PushShutdownHook at daemon shutdown, ...) all invoke the same closure;
their combined effect is n sequential invocations from the fresh state. -/
def iterateShutdown (shutdowners : List String) : Nat → HandleState
  | 0 => { shutdownOnceDone := false, executed := [] }
  | n + 1 => shutdownClosure shutdowners (iterateShutdown shutdowners n)

/-- Errors from the startup sequence of Service.Run. -/
inductive RunErr where
  | alreadyRunning
  | other (msg : String)
deriving Repr, DecidableEq

/-- Collaborator outcomes for one run of Service.Run: each field is the
outcome of the corresponding fallible startup step. -/
structure RunEnv where
  writeServiceInfoErr : Option RunErr
  ensureRuntimeDirErr : Option RunErr
  pidFileNameErr : Option RunErr
  lockHeld : Bool
  cleanupSocketErr : Option RunErr
  localDbErr : Option RunErr
  localChatDbErr : Option RunErr
  bindErr : Option RunErr
deriving Repr, DecidableEq

/-- Service.lockPIDFile: resolve the pid file name, then Lock it.
Modelled from the spec: libkb.LockPIDFile.Lock is not in the corpus; per
the spec the daemon "fails fast with AlreadyRunning if held", so Lock
returns the AlreadyRunning error exactly when the lock is already held. -/
def lockPIDFile (env : RunEnv) : Option RunErr :=
  match env.pidFileNameErr with
  | some e => some e
  | none => if env.lockHeld then some .alreadyRunning else none

/-- Service.GetExclusiveLock (via GetExclusiveLockWithoutAutoUnlock):
ensureRuntimeDir then lockPIDFile, each failure returned immediately. -/
def GetExclusiveLock (env : RunEnv) : Option RunErr :=
  match env.ensureRuntimeDirErr with
  | some e => some e
  | none => lockPIDFile env

/-- Outcome of Service.Run startup: the error it aborted with (none when
startup reached the listen loop) and whether the listening endpoint was
successfully bound. -/
structure RunOutcome where
  result : Option RunErr
  bound : Bool
deriving Repr, DecidableEq

/-- Service.Run startup sequence: writeServiceInfo, GetExclusiveLock,
cleanupSocketFile, LocalDb.ForceOpen, LocalChatDb.ForceOpen, then
ConfigRPCServer (BindToSocket). Every failure aborts Run with that error
before the next step; the endpoint is bound only when all steps succeed.
(The chdir step between writeServiceInfo and the lock only logs its error
and is elided; the listen loop after the bind is beyond startup.) -/
def Run (env : RunEnv) : RunOutcome :=
  match env.writeServiceInfoErr with
  | some e => ⟨some e, false⟩
  | none =>
  match GetExclusiveLock env with
  | some e => ⟨some e, false⟩
  | none =>
  match env.cleanupSocketErr with
  | some e => ⟨some e, false⟩
  | none =>
  match env.localDbErr with
  | some e => ⟨some e, false⟩
  | none =>
  match env.localChatDbErr with
  | some e => ⟨some e, false⟩
  | none =>
  match env.bindErr with
  | some e => ⟨some e, false⟩
  | none => ⟨none, true⟩

end Service

/-!
Theorems settling the claims.
-/

/-- Claim C3: for every cache state on which the Fetch rule produces a
value, MatchInbox (resp. MatchBodies) succeeds exactly when the expected
version equals the cached InboxVers (resp. BodiesVers), and otherwise
returns a VersionMismatchError carrying the expected and the actual
value. -/
theorem C3_match_versions (env : Storage.CodecEnv) (db : Storage.ChatDb)
    (s : Storage.ServerVersions) (v : Int) (sv : Storage.ServerCacheVers)
    (s1 : Storage.ServerVersions)
    (h : Storage.fetchLocked env db s = (.ok sv, s1)) :
    (Storage.MatchInbox env db s v).fst =
      (if v = sv.InboxVers then .ok ()
       else .error (.versionMismatchError v sv.InboxVers)) ∧
    (Storage.MatchBodies env db s v).fst =
      (if v = sv.BodiesVers then .ok ()
       else .error (.versionMismatchError v sv.BodiesVers)) := by
  unfold Storage.MatchInbox Storage.MatchBodies Storage.matchLocked
  rw [h]
  constructor
  · by_cases hv : v = sv.InboxVers
    · subst hv; simp
    · simp [hv, Ne.symm hv]
  · by_cases hv : v = sv.BodiesVers
    · subst hv; simp
    · simp [hv, Ne.symm hv]

/-- Witness for C3, the scenario of the spec: with {5, 5} cached,
MatchBodies 5 succeeds and MatchBodies 6 yields VersionMismatchError(6, 5). -/
theorem C3_match_versions_witness :
    (Storage.MatchBodies Storage.codec0 Storage.dbEmpty ⟨some ⟨5, 5⟩⟩ 5).fst =
      .ok () ∧
    (Storage.MatchBodies Storage.codec0 Storage.dbEmpty ⟨some ⟨5, 5⟩⟩ 6).fst =
      .error (.versionMismatchError 6 5) := by
  have h5 := C3_match_versions Storage.codec0 Storage.dbEmpty ⟨some ⟨5, 5⟩⟩ 5
    ⟨5, 5⟩ ⟨some ⟨5, 5⟩⟩ rfl
  have h6 := C3_match_versions Storage.codec0 Storage.dbEmpty ⟨some ⟨5, 5⟩⟩ 6
    ⟨5, 5⟩ ⟨some ⟨5, 5⟩⟩ rfl
  refine ⟨?_, ?_⟩
  · rw [h5.2]; norm_num
  · rw [h6.2]; norm_num

/-- Claim C4: after a successful Sync(newVers) the memory cache holds
newVers, the persisted record holds the encoding of newVers, and a
subsequent Fetch (with no intervening Sync) returns newVers. -/
theorem C4_sync_fetch_roundtrip (env : Storage.CodecEnv) (db : Storage.ChatDb)
    (s : Storage.ServerVersions) (vers : Storage.ServerCacheVers)
    (h : (Storage.Sync env db s vers).fst = .ok ()) :
    (Storage.Sync env db s vers).snd.fst.cached = some vers ∧
    (∃ dat, env.encode vers = .ok dat ∧
      (Storage.Sync env db s vers).snd.snd.record = .found dat) ∧
    (Storage.Fetch env (Storage.Sync env db s vers).snd.snd
      (Storage.Sync env db s vers).snd.fst).fst = .ok vers := by
  rcases henc : env.encode vers with msg | dat
  · simp [Storage.Sync, henc] at h
  · rcases hput : db.putErr with _ | msg
    · refine ⟨?_, ⟨dat, rfl, ?_⟩, ?_⟩ <;>
        simp [Storage.Sync, Storage.Fetch, Storage.fetchLocked, henc, hput]
    · simp [Storage.Sync, henc, hput] at h

/-- Witness for C4: syncing {5, 5} into the empty cache, then fetching,
returns {5, 5}. -/
theorem C4_sync_fetch_roundtrip_witness :
    (Storage.Sync Storage.codec0 Storage.dbEmpty Storage.sEmpty
      ⟨5, 5⟩).snd.fst.cached = some ⟨5, 5⟩ ∧
    (Storage.Fetch Storage.codec0
      (Storage.Sync Storage.codec0 Storage.dbEmpty Storage.sEmpty ⟨5, 5⟩).snd.snd
      (Storage.Sync Storage.codec0 Storage.dbEmpty Storage.sEmpty
        ⟨5, 5⟩).snd.fst).fst = .ok ⟨5, 5⟩ := by
  have h := C4_sync_fetch_roundtrip Storage.codec0 Storage.dbEmpty
    Storage.sEmpty ⟨5, 5⟩ rfl
  exact ⟨h.1, h.2.2⟩

/-- Claim C5: Fetch returns the in-memory value when one is cached; else
the decoded persisted record when one exists; else the zero value with no
error — absence of a persisted record is never an error. -/
theorem C5_fetch_cases (env : Storage.CodecEnv) (db : Storage.ChatDb)
    (s : Storage.ServerVersions) :
    (∀ v, s.cached = some v → (Storage.Fetch env db s).fst = .ok v) ∧
    (∀ raw v, s.cached = none → db.record = .found raw →
      env.decode raw = .ok v → (Storage.Fetch env db s).fst = .ok v) ∧
    (s.cached = none → db.record = .notFound →
      (Storage.Fetch env db s).fst = .ok ⟨0, 0⟩) := by
  refine ⟨fun v hv => ?_, fun raw v hc hr hd => ?_, fun hc hr => ?_⟩ <;>
    simp [Storage.Fetch, Storage.fetchLocked, *]

/-- Witness for C5: with nothing cached and no persisted record, Fetch
returns the zero value {0, 0} with no error. -/
theorem C5_fetch_cases_witness :
    (Storage.Fetch Storage.codec0 Storage.dbEmpty Storage.sEmpty).fst =
      .ok ⟨0, 0⟩ :=
  (C5_fetch_cases Storage.codec0 Storage.dbEmpty Storage.sEmpty).2.2 rfl rfl

/-- Claim C9: Sync is not atomic on error — when Sync(newVers) reports a
failure (encode or PutRaw), the memory cache has nevertheless already been
replaced, so a subsequent Fetch returns newVers. -/
theorem C9_sync_failure_memory_updated (env : Storage.CodecEnv)
    (db : Storage.ChatDb) (s : Storage.ServerVersions)
    (vers : Storage.ServerCacheVers) (e : Storage.ChatError)
    (_h : (Storage.Sync env db s vers).fst = .error e) :
    (Storage.Sync env db s vers).snd.fst.cached = some vers ∧
    (Storage.Fetch env (Storage.Sync env db s vers).snd.snd
      (Storage.Sync env db s vers).snd.fst).fst = .ok vers := by
  rcases henc : env.encode vers with msg | dat <;>
    rcases hput : db.putErr with _ | msg2 <;>
    simp [Storage.Sync, Storage.Fetch, Storage.fetchLocked, henc, hput]

/-- Witness for C9: with a failing encoder, Sync {7, 8} reports an error,
yet the memory cache holds {7, 8} and Fetch returns it. -/
theorem C9_sync_failure_memory_updated_witness :
    (Storage.Sync Storage.codecEncodeFail Storage.dbEmpty Storage.sEmpty
      ⟨7, 8⟩).snd.fst.cached = some ⟨7, 8⟩ ∧
    (Storage.Fetch Storage.codecEncodeFail
      (Storage.Sync Storage.codecEncodeFail Storage.dbEmpty Storage.sEmpty
        ⟨7, 8⟩).snd.snd
      (Storage.Sync Storage.codecEncodeFail Storage.dbEmpty Storage.sEmpty
        ⟨7, 8⟩).snd.fst).fst = .ok ⟨7, 8⟩ :=
  C9_sync_failure_memory_updated Storage.codecEncodeFail Storage.dbEmpty
    Storage.sEmpty ⟨7, 8⟩ (.internalError ("encode error: " ++ "boom")) rfl

/-- Claim C8: Call with an absent (nil) context returns the nil-context
(InvalidArgument) error and performs no transport action, for every method,
argument and transport state. -/
theorem C8_call_nil_context (env : Rpc.RpcEnv) (method : String) (arg : Int) :
    Rpc.Call env none method arg = (.error .noContext, []) := rfl

/-- Counterexample to claim C1 as stated: with the uid non-nil, a failing
gregordConnect makes OnLogin return that error immediately, and the
Deliverer start step is never attempted — one failing start step does block
the others. -/
theorem C1_counterexample :
    (Service.OnLogin ⟨none, false, none, some (Service.GErr.err "network down")⟩
      false).fst = .error (Service.GErr.err "network down") ∧
    Service.LoginAction.delivererStart ∉
      (Service.OnLogin ⟨none, false, none,
        some (Service.GErr.err "network down")⟩ false).snd := by
  exact ⟨rfl, by decide⟩

/-- Claim C1 amended: OnLogin runs rekeyMaster.Login and then
gregordConnect; when gregordConnect fails, OnLogin returns that error and
neither the Deliverer start nor the background identifier is attempted;
when it succeeds and the uid is non-nil, both remaining start steps are
attempted and OnLogin succeeds (the background identifier swallows its own
errors). -/
theorem C1_onLogin_amended (genv : Service.GregorEnv) (uidNil : Bool) :
    (∀ e, (Service.gregordConnect genv).fst = .error e →
      Service.OnLogin genv uidNil =
        (.error e, [.rekeyLogin, .gregordConnectStep])) ∧
    ((Service.gregordConnect genv).fst = .ok () → uidNil = false →
      Service.OnLogin genv uidNil =
        (.ok (), [.rekeyLogin, .gregordConnectStep, .delivererStart,
                  .bgIdentifierRun])) := by
  constructor
  · intro e he
    simp [Service.OnLogin, he]
  · intro hok hu
    simp [Service.OnLogin, hok, hu]

/-- Witness for the amended C1: with a successful gregordConnect and a
non-nil uid, all four start steps run and OnLogin succeeds. -/
theorem C1_onLogin_amended_witness :
    Service.OnLogin ⟨none, false, none, none⟩ false =
      (.ok (), [.rekeyLogin, .gregordConnectStep, .delivererStart,
                .bgIdentifierRun]) :=
  (C1_onLogin_amended ⟨none, false, none, none⟩ false).2 rfl rfl

/-- Claim C2, failing input: a session in which startupGregor and
createMessageDeliverer both ran (so a Deliverer was created, in the global
context slot). OnLogout runs gregor shutdown, rekey logout and badger clear
in order, but never invokes the Deliverer Stop, because the struct field
messageDeliverer it guards on is never assigned by createMessageDeliverer. -/
theorem C2_deliverer_stop_skipped :
    (Service.createMessageDeliverer
      (Service.startupGregor Service.newService false)).globalMessageDelivererSet
      = true ∧
    (Service.OnLogout (Service.createMessageDeliverer
      (Service.startupGregor Service.newService false))).snd =
      [.gregorShutdown, .rekeyLogout, .badgerClear] ∧
    Service.LogoutAction.delivererStop ∉
      (Service.OnLogout (Service.createMessageDeliverer
        (Service.startupGregor Service.newService false))).snd := by
  exact ⟨rfl, rfl, by decide⟩

/-- Claim C6: however many close paths fire (at least one), the connection
teardown built in Service.Handle runs the registered Shutdowners exactly
once, thanks to the sync.Once guard. -/
theorem C6_shutdown_once (sh : List String) (n : Nat) (h : 1 ≤ n) :
    (Service.iterateShutdown sh n).shutdownOnceDone = true ∧
    (Service.iterateShutdown sh n).executed = [sh] := by
  induction n with
  | zero => omega
  | succ m ih =>
    rcases Nat.eq_zero_or_pos m with h0 | hpos
    · subst h0
      simp [Service.iterateShutdown, Service.shutdownClosure]
    · have hm := ih hpos
      simp [Service.iterateShutdown, Service.shutdownClosure, hm.1, hm.2]

/-- Witness for C6: three invocations of the shutdown closure (connection
close, then the daemon shutdown hook, then once more) still run the
Shutdowner list exactly once. -/
theorem C6_shutdown_once_witness :
    (Service.iterateShutdown ["chat", "log"] 3).executed = [["chat", "log"]] :=
  (C6_shutdown_once ["chat", "log"] 3 (by norm_num)).2

/-- Claim C7: Run aborts with an error and never binds the listening
endpoint whenever lock acquisition, socket-file cleanup, either local store
open, or the bind itself fails; and when the startup steps before the lock
succeed and the single-instance lock is already held, Run fails fast with
AlreadyRunning. -/
theorem C7_run_aborts (env : Service.RunEnv) :
    ((Service.GetExclusiveLock env ≠ none ∨ env.cleanupSocketErr ≠ none ∨
      env.localDbErr ≠ none ∨ env.localChatDbErr ≠ none ∨
      env.bindErr ≠ none) →
      (Service.Run env).result ≠ none ∧ (Service.Run env).bound = false) ∧
    (env.writeServiceInfoErr = none → env.ensureRuntimeDirErr = none →
      env.pidFileNameErr = none → env.lockHeld = true →
      Service.Run env = ⟨some .alreadyRunning, false⟩) := by
  rcases env with ⟨w, erd, pfn, lh, cs, ldb, lcdb, be⟩
  cases w <;> cases erd <;> cases pfn <;> cases lh <;> cases cs <;>
    cases ldb <;> cases lcdb <;> cases be <;>
    simp [Service.Run, Service.GetExclusiveLock, Service.lockPIDFile]

/-- Witness for C7: with every earlier step succeeding and the lock already
held, Run aborts with AlreadyRunning and the endpoint is not bound. -/
theorem C7_run_aborts_witness :
    Service.Run ⟨none, none, none, true, none, none, none, none⟩ =
      ⟨some Service.RunErr.alreadyRunning, false⟩ :=
  (C7_run_aborts ⟨none, none, none, true, none, none, none, none⟩).2
    rfl rfl rfl rfl

/-- Claim C10: when gregordConnect runs with the push client already
connected (and a parseable URI), Reset and then Connect are always both
performed and the returned value depends only on the Connect outcome — the
Reset error, whatever it is, is discarded by the stale-variable guard. -/
theorem C10_reset_error_discarded (env : Service.GregorEnv)
    (h1 : env.parseUriErr = none) (h2 : env.isConnected = true) :
    (Service.gregordConnect env).snd = [.reset, .connect] ∧
    (Service.gregordConnect env).fst =
      (match env.connectErr with
       | some e => .error e
       | none => .ok ()) := by
  rcases env with ⟨p, ic, r, c⟩
  dsimp only at h1 h2
  subst h1
  subst h2
  rcases c with _ | e <;> simp [Service.gregordConnect]

/-- Witness for C10: already connected, Reset would fail, yet gregordConnect
performs Reset then Connect and returns success. -/
theorem C10_reset_error_discarded_witness :
    (Service.gregordConnect
      ⟨none, true, some (Service.GErr.err "reset failed"), none⟩).snd =
      [.reset, .connect] ∧
    (Service.gregordConnect
      ⟨none, true, some (Service.GErr.err "reset failed"), none⟩).fst =
      .ok () := by
  have h := C10_reset_error_discarded
    ⟨none, true, some (Service.GErr.err "reset failed"), none⟩ rfl rfl
  exact ⟨h.1, h.2⟩

end Keybase
